import Mathlib

/-!
Verification development for the SynD model core (`synd/models/base.py`).

The embedding models:

* the per-instance backmapper registry (`_backmappers`, a Python `dict`
  from name to unary function) as an association list `List (String × (T → T))`
  with insertion at the end (Python dicts preserve insertion order and a
  guarded insert never overwrites);
* the registry operations `add_backmapper`, `remove_backmapper`,
  `get_backmapper`, the `default_backmapper` property, and the constructor
  `SynDModel.__init__` in explicit-state style: a mutating method that can
  raise becomes a function returning the new state together with an optional
  exception (`none` on the normal path); a raise happens before any mutation,
  so the error branch returns the state unchanged, exactly as in the source;
* the abstract method `generate_unmapped_trajectories` as a function field of
  the model structure (kwargs are ignored; the trajectory `length` is a
  parameter of abstract type `L`, matching the source's `numbers.Real`
  annotation that the core never inspects);
* the generation pipeline twice, at two levels of granularity that are proved
  consistent (`drainGen_created_eq_generate_trajectories`):
  - `SynDModel.generate_trajectories` is the aggregate result of creating the
    generator and draining it completely, i.e. the value of
    `list(m.generate_trajectories(...))`: either the first exception or the
    full list of yielded trajectories;
  - `generate_trajectories_call` / `generator_next` model the CPython
    generator protocol operationally: calling a generator function executes
    none of its body and returns a generator object (state `created`); the
    body runs on the first `next`, which resolves the backmapper name and
    requests the raw trajectories (moving to state `running`), and each
    subsequent `next` yields one mapped trajectory;
* `generate_trajectory` as `next(iter(...))` on the generator object, and
* the persistence mixin, with the external `pickle` module abstracted as an
  exact round-trip encoder (`pickle_dumps` / `pickle_loads`) per the spec's
  external-interface description, and `isinstance` as a subclass check over a
  small universe of class tags.
-/

/-- Python exception classes that the core raises: `ValueError` from the
registry, `TypeError` from `deserialize`, `StopIteration` from `next` on an
exhausted generator. -/
inductive PyError where
  | valueError (msg : String)
  | typeError (msg : String)
  | stopIteration
deriving Repr, DecidableEq

/-- Message of the `ValueError` raised by `add_backmapper` on a duplicate
name (source line 105). -/
def duplicateMsg (name : String) : String :=
  "a backmapper named " ++ name ++ " is already defined for this model"

/-- Message of the `ValueError` raised by `remove_backmapper` and
`get_backmapper` on a missing name (source lines 111 and 117). -/
def missingMsg (name : String) : String :=
  "no backmapper named " ++ name ++ " is defined for this model"

/-- A `SynDModel` instance: the backmapper registry `_backmappers` plus the
abstract raw-generation method that a concrete subclass supplies.
`L` is the type of the `length` argument, `S` of initial states, `T` of
trajectories. -/
structure SynDModel (L S T : Type) where
  backmappers : List (String × (T → T))
  generate_unmapped_trajectories : L → List S → List T

namespace SynDModel

variable {L S T : Type}

/-- Method `add_backmapper` (source lines 103–107): raise `ValueError` if the
name is taken, otherwise insert the entry; on raise the registry is
unchanged. -/
def add_backmapper (m : SynDModel L S T) (backmapper : T → T) (name : String) :
    SynDModel L S T × Option PyError :=
  match m.backmappers.lookup name with
  | some _ => (m, some (PyError.valueError (duplicateMsg name)))
  | none => ({ m with backmappers := m.backmappers ++ [(name, backmapper)] }, none)

/-- Method `remove_backmapper` (source lines 109–113): raise `ValueError` if
the name is absent, otherwise pop the entry; on raise the registry is
unchanged. -/
def remove_backmapper (m : SynDModel L S T) (name : String) :
    SynDModel L S T × Option PyError :=
  match m.backmappers.lookup name with
  | none => (m, some (PyError.valueError (missingMsg name)))
  | some _ => ({ m with backmappers := m.backmappers.eraseP (fun p => p.1 == name) }, none)

/-- Method `get_backmapper` (source lines 115–119): raise `ValueError` if the
name is absent, otherwise return the registered function. -/
def get_backmapper (m : SynDModel L S T) (name : String) : Except PyError (T → T) :=
  match m.backmappers.lookup name with
  | none => Except.error (PyError.valueError (missingMsg name))
  | some f => Except.ok f

/-- Property read `default_backmapper` (source lines 95–97):
`self._backmappers.get('default')`. -/
def default_backmapper (m : SynDModel L S T) : Option (T → T) :=
  m.backmappers.lookup "default"

/-- Property write `default_backmapper` (source lines 99–101): delegates to
`add_backmapper(value, 'default')`. -/
def set_default_backmapper (m : SynDModel L S T) (value : T → T) :
    SynDModel L S T × Option PyError :=
  m.add_backmapper value "default"

/-- Constructor `SynDModel.__init__` (source lines 90–93): start with an
empty registry; when an initial default backmapper is given, register it
through the `default_backmapper` setter (which cannot fail on an empty
registry). -/
def init (gen : L → List S → List T) (default? : Option (T → T)) : SynDModel L S T :=
  let m : SynDModel L S T := { backmappers := [], generate_unmapped_trajectories := gen }
  match default? with
  | none => m
  | some f => (m.set_default_backmapper f).1

end SynDModel

/-- Body of the `for` loop of `generate_trajectories` (source lines 140–141):
apply the resolved backmapper when one was selected, otherwise yield the raw
trajectory unchanged. -/
def applyBackmapper {T : Type} (f? : Option (T → T)) (traj : T) : T :=
  match f? with
  | some f => f traj
  | none => traj

namespace SynDModel

variable {L S T : Type}

/-- Aggregate value of `list(m.generate_trajectories(length, initial_states,
backmapper))` (source lines 130–142): resolve the backmapper name first
(propagating the `ValueError` of `get_backmapper`), then map the resolved
function over the raw trajectories; with `backmapper=None` the raw
trajectories are yielded unchanged. -/
def generate_trajectories (m : SynDModel L S T) (length : L) (initial_states : List S)
    (backmapper : Option String) : Except PyError (List T) :=
  match backmapper with
  | some name =>
    match m.get_backmapper name with
    | Except.error e => Except.error e
    | Except.ok f =>
      Except.ok ((m.generate_unmapped_trajectories length initial_states).map
        (applyBackmapper (some f)))
  | none => Except.ok (m.generate_unmapped_trajectories length initial_states)

/-- The Python signature is `generate_trajectories(self, length,
initial_states, backmapper='default', **kwargs)` (source line 134): the
`backmapper` parameter defaults to the string `'default'`, not to `None`.
This is the call with the parameter left at its default. -/
def generate_trajectories_default (m : SynDModel L S T) (length : L)
    (initial_states : List S) : Except PyError (List T) :=
  m.generate_trajectories length initial_states (some "default")

end SynDModel

/-- Execution state of a generator object produced by calling
`generate_trajectories`: `created` holds the captured arguments before the
body has started (no code of the body has run); `running` holds the
already-resolved backmapper and the raw trajectories not yet yielded;
`exhausted` is a finished generator. -/
inductive GenState (L S T : Type) where
  | created (length : L) (initial_states : List S) (backmapper : Option String)
  | running (f? : Option (T → T)) (remaining : List T)
  | exhausted

/-- One `next` step of the loop of `generate_trajectories` over the raw
trajectories that remain: yield the (possibly backmapped) head, or finish. -/
def stepRaw {L S T : Type} (f? : Option (T → T)) :
    List T → Except PyError (Option T × GenState L S T)
  | [] => Except.ok (none, GenState.exhausted)
  | t :: ts => Except.ok (some (applyBackmapper f? t), GenState.running f? ts)

/-- One `next` on a `generate_trajectories` generator object, given the model
`m` as it is at the moment of that `next`. On the first `next` of a `created`
generator the body starts: the backmapper name is resolved against the
registry (raising the `ValueError` of `get_backmapper` if unresolvable,
before any raw generation), the raw trajectories are requested, and the first
trajectory is yielded. A `running` generator only consumes its stored
remaining trajectories with its stored resolved backmapper; `m` is not
consulted. An `exhausted` generator signals `StopIteration` (modelled as
yielding `none`). -/
def generator_next {L S T : Type} (m : SynDModel L S T) :
    GenState L S T → Except PyError (Option T × GenState L S T)
  | GenState.created length initial_states backmapper =>
    match backmapper with
    | some name =>
      match m.get_backmapper name with
      | Except.error e => Except.error e
      | Except.ok f =>
        stepRaw (some f) (m.generate_unmapped_trajectories length initial_states)
    | none => stepRaw none (m.generate_unmapped_trajectories length initial_states)
  | GenState.running f? remaining => stepRaw f? remaining
  | GenState.exhausted => Except.ok (none, GenState.exhausted)

namespace SynDModel

variable {L S T : Type}

/-- The call expression `m.generate_trajectories(length, initial_states,
backmapper)` itself: `generate_trajectories` is a generator function (its
body contains `yield`), so the call executes none of the body and returns a
generator object normally — it can raise nothing. The `Except` type records
that no exception escapes the call. -/
def generate_trajectories_call (m : SynDModel L S T) (length : L)
    (initial_states : List S) (backmapper : Option String) :
    Except PyError (GenState L S T) :=
  Except.ok (GenState.created length initial_states backmapper)

/-- Method `generate_trajectory` (source lines 144–156):
`next(iter(self.generate_trajectories(length, [initial_state], backmapper)))`
— create the generator on a one-element state list and take its first `next`;
an exhausted generator makes `next` raise `StopIteration`. -/
def generate_trajectory (m : SynDModel L S T) (length : L) (initial_state : S)
    (backmapper : Option String) : Except PyError T :=
  match generator_next m (GenState.created length [initial_state] backmapper) with
  | Except.error e => Except.error e
  | Except.ok (none, _) => Except.error PyError.stopIteration
  | Except.ok (some t, _) => Except.ok t

/-- Call of `generate_trajectory` with the `backmapper` parameter left at its
default value, the string `'default'` (source line 148). -/
def generate_trajectory_default (m : SynDModel L S T) (length : L)
    (initial_state : S) : Except PyError T :=
  m.generate_trajectory length initial_state (some "default")

end SynDModel

/-- Drain a generator with `fuel` allowed `next` calls against a fixed model
`m`: the list of all yielded trajectories, or the first exception raised. -/
def drainGen {L S T : Type} (m : SynDModel L S T) :
    Nat → GenState L S T → Except PyError (List T)
  | 0, _ => Except.ok []
  | Nat.succ fuel, g =>
    match generator_next m g with
    | Except.error e => Except.error e
    | Except.ok (none, _) => Except.ok []
    | Except.ok (some t, g') =>
      match drainGen m fuel g' with
      | Except.error e => Except.error e
      | Except.ok ts => Except.ok (t :: ts)

/-- Class tags for the `isinstance` check of `_SerializableMixin.deserialize`:
the abstract base class and two unrelated concrete model subclasses. -/
inductive PyClassId where
  | synDModel
  | modelA
  | modelB
deriving Repr, DecidableEq

/-- Printable class name, used in the `TypeError` message of `deserialize`. -/
def PyClassId.className : PyClassId → String
  | PyClassId.synDModel => "SynDModel"
  | PyClassId.modelA => "ModelA"
  | PyClassId.modelB => "ModelB"

/-- Subclass relation of the modelled hierarchy: every class is a subclass of
itself, and both concrete classes are subclasses of `SynDModel`. -/
def isSubclass (c parent : PyClassId) : Bool :=
  c == parent || parent == PyClassId.synDModel

/-- A Python object as seen by the persistence mixin: its concrete class and
its state, here a model instance (registry plus generation method). -/
structure PyObject (L S T : Type) where
  cls : PyClassId
  model : SynDModel L S T

/-- The byte sequence produced by `pickle.dumps`: an opaque encoding of the
full object graph. The `pickle` module is external to this repository; the
spec describes it as a full-fidelity, round-trip-exact object serializer, so
it is modelled as an exact invertible encoder. -/
structure Pickled (L S T : Type) where
  payload : PyObject L S T

/-- External `pickle.dumps` (full-fidelity encoding of the object graph). -/
def pickle_dumps {L S T : Type} (obj : PyObject L S T) : Pickled L S T :=
  { payload := obj }

/-- External `pickle.loads`, the inverse of `pickle_dumps`. -/
def pickle_loads {L S T : Type} (p : Pickled L S T) : PyObject L S T :=
  p.payload

/-- Python `isinstance(obj, cls)`: the object's class is `cls` or a subclass
of it. -/
def isInstance {L S T : Type} (obj : PyObject L S T) (cls : PyClassId) : Bool :=
  isSubclass obj.cls cls

namespace PyObject

variable {L S T : Type}

/-- Method `_SerializableMixin.serialize` (source lines 23–32):
`pickle.dumps(self)`. -/
def serialize (obj : PyObject L S T) : Pickled L S T :=
  pickle_dumps obj

end PyObject

/-- Classmethod `_SerializableMixin.deserialize` (source lines 34–52):
`pickle.loads`, then raise `TypeError` unless the reconstructed object is an
instance of the class the method was invoked on. -/
def deserialize {L S T : Type} (cls : PyClassId) (serialized : Pickled L S T) :
    Except PyError (PyObject L S T) :=
  let obj := pickle_loads serialized
  if isInstance obj cls then Except.ok obj
  else Except.error (PyError.typeError ("object must be an instance of " ++ cls.className))

/-- Reversal backmapper used in concrete instances, the spec's example
`lambda t: t[::-1]`. -/
def revBM : List Nat → List Nat := List.reverse

/-- A concrete raw-generation method: from initial state `s`, the trajectory
`[s, s+1, ..., s+length-1]`. -/
def demoGen : Nat → List Nat → List (List Nat) :=
  fun length states => states.map (fun s => List.range' s length)

/-- A concrete model with `revBM` registered as its initial default
backmapper. -/
def demoModel : SynDModel Nat Nat (List Nat) :=
  SynDModel.init demoGen (some revBM)

/-- A concrete model constructed with no backmappers at all. -/
def bareModel : SynDModel Nat Nat (List Nat) :=
  SynDModel.init demoGen none

section AssocLemmas

variable {F : Type}

/-- Looking up a key that is absent from the key list gives nothing. -/
theorem lookup_eq_none_of_not_mem_keys (name : String) (l : List (String × F))
    (h : name ∉ l.map Prod.fst) : l.lookup name = none := by
  induction l with
  | nil => rfl
  | cons p rest ih =>
    cases p with
    | mk k f =>
      simp only [List.map_cons, List.mem_cons, not_or] at h
      have hne : (name == k) = false := beq_eq_false_iff_ne.mpr h.1
      simp [List.lookup, hne, ih h.2]

/-- Appending a fresh entry does not change lookups of other keys. -/
theorem lookup_append_ne (l : List (String × F)) (name n' : String) (f : F)
    (h : n' ≠ name) : (l ++ [(name, f)]).lookup n' = l.lookup n' := by
  induction l with
  | nil => simp [List.lookup, beq_eq_false_iff_ne.mpr h]
  | cons p rest ih =>
    cases p with
    | mk k g =>
      by_cases hk : n' = k
      · subst hk; simp [List.lookup]
      · simp [List.lookup, beq_eq_false_iff_ne.mpr hk, ih]

/-- Appending an entry under a key that was absent makes that key resolve to
the new value. -/
theorem lookup_append_self (l : List (String × F)) (name : String) (f : F)
    (h : l.lookup name = none) : (l ++ [(name, f)]).lookup name = some f := by
  induction l with
  | nil => simp [List.lookup]
  | cons p rest ih =>
    cases p with
    | mk k g =>
      by_cases hk : name = k
      · subst hk; simp [List.lookup] at h
      · simp only [List.lookup, beq_eq_false_iff_ne.mpr hk] at h
        simp [List.cons_append, List.lookup, beq_eq_false_iff_ne.mpr hk, ih h]

/-- Erasing the entry of one key does not change lookups of other keys. -/
theorem lookup_eraseP_ne (l : List (String × F)) (name n' : String)
    (h : n' ≠ name) :
    (l.eraseP (fun p => p.1 == name)).lookup n' = l.lookup n' := by
  induction l with
  | nil => rfl
  | cons p rest ih =>
    cases p with
    | mk k g =>
      by_cases hk : k = name
      · subst hk
        simp [List.eraseP_cons, List.lookup, beq_eq_false_iff_ne.mpr h]
      · simp [List.eraseP_cons, beq_eq_false_iff_ne.mpr hk, List.lookup, ih]

/-- With no duplicate keys, erasing a key's entry makes that key
unresolvable. -/
theorem lookup_eraseP_self (l : List (String × F)) (name : String)
    (h : (l.map Prod.fst).Nodup) :
    (l.eraseP (fun p => p.1 == name)).lookup name = none := by
  induction l with
  | nil => rfl
  | cons p rest ih =>
    cases p with
    | mk k g =>
      simp only [List.map_cons, List.nodup_cons] at h
      by_cases hk : k = name
      · subst hk
        simp only [List.eraseP_cons, beq_self_eq_true, cond_true]
        exact lookup_eq_none_of_not_mem_keys k rest h.1
      · simp only [List.eraseP_cons, beq_eq_false_iff_ne.mpr hk, cond_false]
        have hne : (name == k) = false := beq_eq_false_iff_ne.mpr (Ne.symm hk)
        simp [List.lookup, hne, ih h.2]

end AssocLemmas

/-- With no backmapper selected the loop body is the identity. -/
theorem map_applyBackmapper_none {T : Type} (l : List T) :
    l.map (applyBackmapper (none : Option (T → T))) = l := by
  induction l with
  | nil => rfl
  | cons t ts ih => simp [applyBackmapper, ih]

/-- With a resolved backmapper the loop body applies that function. -/
theorem map_applyBackmapper_some {T : Type} (f : T → T) (l : List T) :
    l.map (applyBackmapper (some f)) = l.map f := by
  induction l with
  | nil => rfl
  | cons t ts ih => simp [applyBackmapper, ih]

/-- Draining a started generator yields its remaining raw trajectories under
its stored backmapper, whatever model it is drained against. -/
theorem drainGen_running_eq {L S T : Type} (m : SynDModel L S T)
    (f? : Option (T → T)) (rem : List T) (fuel : Nat) (h : rem.length < fuel) :
    drainGen m fuel (GenState.running f? rem) =
      Except.ok (rem.map (applyBackmapper f?)) := by
  induction rem generalizing fuel with
  | nil =>
    cases fuel with
    | zero => exact absurd h (Nat.not_lt_zero 0)
    | succ n => simp [drainGen, generator_next, stepRaw]
  | cons t ts ih =>
    cases fuel with
    | zero => exact absurd h (Nat.not_lt_zero _)
    | succ n =>
      have h' : ts.length < n := Nat.lt_of_succ_lt_succ (by simpa using h)
      simp [drainGen, generator_next, stepRaw, ih n h']

/-- Consistency of the two pipeline granularities: creating the generator and
draining it completely against a fixed model produces exactly the aggregate
value `generate_trajectories`, exception included. -/
theorem drainGen_created_eq_generate_trajectories {L S T : Type}
    (m : SynDModel L S T) (length : L) (states : List S) (bm? : Option String)
    (fuel : Nat) (h : (m.generate_unmapped_trajectories length states).length < fuel) :
    drainGen m fuel (GenState.created length states bm?) =
      m.generate_trajectories length states bm? := by
  cases fuel with
  | zero => exact absurd h (Nat.not_lt_zero _)
  | succ n =>
    cases bm? with
    | none =>
      cases hraw : m.generate_unmapped_trajectories length states with
      | nil =>
        simp [drainGen, generator_next, stepRaw, hraw, SynDModel.generate_trajectories]
      | cons t ts =>
        rw [hraw] at h
        have h' : ts.length < n := Nat.lt_of_succ_lt_succ (by simpa using h)
        simp [drainGen, generator_next, stepRaw, hraw, SynDModel.generate_trajectories,
          drainGen_running_eq m none ts n h', applyBackmapper, map_applyBackmapper_none]
    | some name =>
      cases hl : m.backmappers.lookup name with
      | none =>
        simp [drainGen, generator_next, SynDModel.get_backmapper, hl,
          SynDModel.generate_trajectories]
      | some f =>
        cases hraw : m.generate_unmapped_trajectories length states with
        | nil =>
          simp [drainGen, generator_next, stepRaw, hraw, SynDModel.get_backmapper, hl,
            SynDModel.generate_trajectories]
        | cons t ts =>
          rw [hraw] at h
          have h' : ts.length < n := Nat.lt_of_succ_lt_succ (by simpa using h)
          simp [drainGen, generator_next, stepRaw, hraw, SynDModel.get_backmapper, hl,
            SynDModel.generate_trajectories, drainGen_running_eq m (some f) ts n h']

/-- C1: on a model with a registered default backmapper `f`, if the raw
generation yields `[T1, T2]` then `generate_trajectories` with the default
argument yields exactly `[f T1, f T2]` in that order, and with
`backmapper=None` it yields `[T1, T2]` unchanged. -/
theorem c1_pipeline_composition {L S T : Type} (m : SynDModel L S T) (length : L)
    (states : List S) (f : T → T) (T1 T2 : T)
    (hdef : m.backmappers.lookup "default" = some f)
    (hraw : m.generate_unmapped_trajectories length states = [T1, T2]) :
    m.generate_trajectories_default length states = Except.ok [f T1, f T2] ∧
    m.generate_trajectories length states none = Except.ok [T1, T2] := by
  constructor
  · simp [SynDModel.generate_trajectories_default, SynDModel.generate_trajectories,
      SynDModel.get_backmapper, hdef, hraw, applyBackmapper]
  · simp [SynDModel.generate_trajectories, hraw]

/-- Witness for C1 at a concrete model: raw trajectories `[[1,2],[5,6]]`,
default backmapper reversal. -/
theorem c1_witness :
    demoModel.backmappers.lookup "default" = some revBM ∧
    demoModel.generate_unmapped_trajectories 2 [1, 5] = [[1, 2], [5, 6]] ∧
    demoModel.generate_trajectories_default 2 [1, 5] = Except.ok [[2, 1], [6, 5]] ∧
    demoModel.generate_trajectories 2 [1, 5] none = Except.ok [[1, 2], [5, 6]] := by
  have hdef : demoModel.backmappers.lookup "default" = some revBM := rfl
  have hraw : demoModel.generate_unmapped_trajectories 2 [1, 5] = [[1, 2], [5, 6]] := rfl
  have h := c1_pipeline_composition demoModel 2 [1, 5] revBM [1, 2] [5, 6] hdef hraw
  exact ⟨hdef, hraw, h.1, h.2⟩

/-- C2: `add_backmapper` on a taken name raises `ValueError` and leaves the
registry unchanged; on a fresh name it inserts exactly that entry.
`remove_backmapper` on an absent name raises `ValueError` and leaves the
registry unchanged; on a present name (registry keys being unique, as every
reachable registry's are) it deletes exactly that entry. -/
theorem c2_registry_guards {L S T : Type} (m : SynDModel L S T) (f : T → T)
    (name : String) :
    ((m.backmappers.lookup name).isSome = true →
      m.add_backmapper f name = (m, some (PyError.valueError (duplicateMsg name)))) ∧
    (m.backmappers.lookup name = none →
      (m.add_backmapper f name).2 = none ∧
      (m.add_backmapper f name).1.backmappers.lookup name = some f ∧
      ∀ n', n' ≠ name →
        (m.add_backmapper f name).1.backmappers.lookup n' = m.backmappers.lookup n') ∧
    (m.backmappers.lookup name = none →
      m.remove_backmapper name = (m, some (PyError.valueError (missingMsg name)))) ∧
    (∀ g, m.backmappers.lookup name = some g → (m.backmappers.map Prod.fst).Nodup →
      (m.remove_backmapper name).2 = none ∧
      (m.remove_backmapper name).1.backmappers.lookup name = none ∧
      ∀ n', n' ≠ name →
        (m.remove_backmapper name).1.backmappers.lookup n' = m.backmappers.lookup n') := by
  refine ⟨?_, ?_, ?_, ?_⟩
  · intro h
    obtain ⟨g, hg⟩ := Option.isSome_iff_exists.mp h
    simp [SynDModel.add_backmapper, hg]
  · intro h
    refine ⟨by simp [SynDModel.add_backmapper, h], ?_, ?_⟩
    · simp only [SynDModel.add_backmapper, h]
      exact lookup_append_self m.backmappers name f h
    · intro n' hn'
      simp only [SynDModel.add_backmapper, h]
      exact lookup_append_ne m.backmappers name n' f hn'
  · intro h
    simp [SynDModel.remove_backmapper, h]
  · intro g hg hnd
    refine ⟨by simp [SynDModel.remove_backmapper, hg], ?_, ?_⟩
    · simp only [SynDModel.remove_backmapper, hg]
      exact lookup_eraseP_self m.backmappers name hnd
    · intro n' hn'
      simp only [SynDModel.remove_backmapper, hg]
      exact lookup_eraseP_ne m.backmappers name n' hn'

/-- Witness for C2 at a concrete model whose registry is
`[("default", revBM)]`: duplicate add of `"default"`, fresh add of
`"other"`, missing remove of `"other"`, present remove of `"default"`. -/
theorem c2_witness :
    demoModel.add_backmapper revBM "default" =
      (demoModel, some (PyError.valueError (duplicateMsg "default"))) ∧
    (demoModel.add_backmapper revBM "other").2 = none ∧
    (demoModel.add_backmapper revBM "other").1.backmappers.lookup "other" = some revBM ∧
    (demoModel.add_backmapper revBM "other").1.backmappers.lookup "default" =
      demoModel.backmappers.lookup "default" ∧
    demoModel.remove_backmapper "other" =
      (demoModel, some (PyError.valueError (missingMsg "other"))) ∧
    (demoModel.remove_backmapper "default").2 = none ∧
    (demoModel.remove_backmapper "default").1.backmappers.lookup "default" = none := by
  have hdup := (c2_registry_guards demoModel revBM "default").1 (by rfl)
  have hfresh := (c2_registry_guards demoModel revBM "other").2.1 (by rfl)
  have hmiss := (c2_registry_guards demoModel revBM "other").2.2.1 (by rfl)
  have hdel := (c2_registry_guards demoModel revBM "default").2.2.2 revBM (by rfl)
    (by simp [demoModel, SynDModel.init, SynDModel.set_default_backmapper,
      SynDModel.add_backmapper, demoGen, List.lookup])
  exact ⟨hdup, hfresh.1, hfresh.2.1,
    hfresh.2.2 "default" (by decide), hmiss, hdel.1, hdel.2.1⟩

/-- C3: a model constructed with an initial default backmapper reports it via
`default_backmapper`; a second `add_backmapper` under `"default"` raises and
leaves the model unchanged; after `remove_backmapper "default"` the default
is absent and re-adding succeeds; the `default_backmapper` setter is exactly
`add_backmapper` under `"default"`. -/
theorem c3_default_lifecycle {L S T : Type} (gen : L → List S → List T)
    (f f2 : T → T) :
    (SynDModel.init gen (some f)).default_backmapper = some f ∧
    (SynDModel.init gen (some f)).add_backmapper f2 "default" =
      (SynDModel.init gen (some f),
        some (PyError.valueError (duplicateMsg "default"))) ∧
    ((SynDModel.init gen (some f)).remove_backmapper "default").1.default_backmapper
      = none ∧
    (((SynDModel.init gen (some f)).remove_backmapper "default").1.add_backmapper
      f2 "default").2 = none ∧
    (((SynDModel.init gen (some f)).remove_backmapper "default").1.add_backmapper
      f2 "default").1.default_backmapper = some f2 ∧
    (∀ (m : SynDModel L S T) (v : T → T),
      m.set_default_backmapper v = m.add_backmapper v "default") :=
  ⟨rfl, rfl, rfl, rfl, rfl, fun _ _ => rfl⟩

/-- Counterexample to C4 as stated: on a model with no backmapper registered,
calling `generate_trajectories` with the unresolvable name `"default"`
returns a generator object normally — the call raises no error at all — and
the `ValueError` only appears at the first `next` on that generator. So the
error is not raised "synchronously at the point of the call". -/
theorem c4_counterexample :
    bareModel.generate_trajectories_call 1 [0] (some "default") =
      Except.ok (GenState.created 1 [0] (some "default")) ∧
    (¬ ∃ e : PyError, bareModel.generate_trajectories_call 1 [0] (some "default") =
      Except.error e) ∧
    generator_next bareModel (GenState.created 1 [0] (some "default")) =
      Except.error (PyError.valueError (missingMsg "default")) := by
  refine ⟨rfl, ?_, rfl⟩
  rintro ⟨e, he⟩
  simp [SynDModel.generate_trajectories_call] at he

/-- C4 (amended): with an unregistered backmapper name, the call to
`generate_trajectories` itself returns the generator object without raising;
the `ValueError`-class error of `get_backmapper` is raised when iteration
begins (at the first `next`), is propagated uncaught, and occurs before any
raw generation — any model with the same registry produces the same error,
whatever its raw-generation method does — and therefore it is the first
exception of the drained pipeline. -/
theorem c4_resolution_error_on_first_next {L S T : Type} (m : SynDModel L S T)
    (length : L) (states : List S) (name : String)
    (h : m.backmappers.lookup name = none) :
    m.generate_trajectories_call length states (some name) =
      Except.ok (GenState.created length states (some name)) ∧
    generator_next m (GenState.created length states (some name)) =
      Except.error (PyError.valueError (missingMsg name)) ∧
    (∀ m' : SynDModel L S T, m'.backmappers = m.backmappers →
      generator_next m' (GenState.created length states (some name)) =
        Except.error (PyError.valueError (missingMsg name))) ∧
    m.generate_trajectories length states (some name) =
      Except.error (PyError.valueError (missingMsg name)) := by
  refine ⟨rfl, ?_, ?_, ?_⟩
  · simp [generator_next, SynDModel.get_backmapper, h]
  · intro m' hm
    simp [generator_next, SynDModel.get_backmapper, hm, h]
  · simp [SynDModel.generate_trajectories, SynDModel.get_backmapper, h]

/-- Witness for the amended C4 at a concrete model with an empty registry. -/
theorem c4_witness :
    bareModel.backmappers.lookup "default" = none ∧
    bareModel.generate_trajectories_call 2 [7] (some "default") =
      Except.ok (GenState.created 2 [7] (some "default")) ∧
    bareModel.generate_trajectories 2 [7] (some "default") =
      Except.error (PyError.valueError (missingMsg "default")) := by
  have h : bareModel.backmappers.lookup "default" = none := rfl
  have hc := c4_resolution_error_on_first_next bareModel 2 [7] "default" h
  exact ⟨h, hc.1, hc.2.2.2⟩

/-- C5: when the raw generation honours its contract (one raw trajectory per
initial state), `generate_trajectories` yields exactly `states.length`
trajectories, the i-th obtained from the i-th raw trajectory, both with a
resolved backmapper and with `backmapper=None`. -/
theorem c5_count_and_order {L S T : Type} (m : SynDModel L S T) (length : L)
    (states : List S) (name : String) (f : T → T)
    (hcontract : (m.generate_unmapped_trajectories length states).length
      = states.length)
    (hname : m.backmappers.lookup name = some f) :
    m.generate_trajectories length states (some name) =
      Except.ok ((m.generate_unmapped_trajectories length states).map f) ∧
    ((m.generate_unmapped_trajectories length states).map f).length
      = states.length ∧
    m.generate_trajectories length states none =
      Except.ok (m.generate_unmapped_trajectories length states) ∧
    (m.generate_unmapped_trajectories length states).length = states.length := by
  refine ⟨?_, ?_, rfl, hcontract⟩
  · simp [SynDModel.generate_trajectories, SynDModel.get_backmapper, hname,
      map_applyBackmapper_some]
  · simp [hcontract]

/-- Witness for C5: two initial states, two trajectories, in order, with and
without the backmapper. -/
theorem c5_witness :
    (demoModel.generate_unmapped_trajectories 3 [4, 9]).length = [4, 9].length ∧
    demoModel.generate_trajectories 3 [4, 9] (some "default") =
      Except.ok [[6, 5, 4], [11, 10, 9]] ∧
    demoModel.generate_trajectories 3 [4, 9] none =
      Except.ok [[4, 5, 6], [9, 10, 11]] := by
  have hcontract : (demoModel.generate_unmapped_trajectories 3 [4, 9]).length
      = [4, 9].length := rfl
  have hname : demoModel.backmappers.lookup "default" = some revBM := rfl
  have h := c5_count_and_order demoModel 3 [4, 9] "default" revBM hcontract hname
  exact ⟨hcontract, h.1, h.2.2.1⟩

/-- C6: `generate_trajectory` is exactly the first element of
`generate_trajectories` on the one-element state list with the same
arguments: a resolution error is propagated, an empty generation gives the
`StopIteration` of `next`, and otherwise the first trajectory is returned. -/
theorem c6_single_trajectory {L S T : Type} (m : SynDModel L S T) (length : L)
    (s : S) (bm? : Option String) :
    m.generate_trajectory length s bm? =
      (match m.generate_trajectories length [s] bm? with
       | Except.error e => Except.error e
       | Except.ok [] => Except.error PyError.stopIteration
       | Except.ok (t :: _) => Except.ok t) := by
  cases bm? with
  | none =>
    cases hraw : m.generate_unmapped_trajectories length [s] with
    | nil =>
      simp [SynDModel.generate_trajectory, generator_next, stepRaw, hraw,
        SynDModel.generate_trajectories]
    | cons t ts =>
      simp [SynDModel.generate_trajectory, generator_next, stepRaw, hraw,
        SynDModel.generate_trajectories, applyBackmapper]
  | some name =>
    cases hl : m.backmappers.lookup name with
    | none =>
      simp [SynDModel.generate_trajectory, generator_next,
        SynDModel.get_backmapper, hl, SynDModel.generate_trajectories]
    | some f =>
      cases hraw : m.generate_unmapped_trajectories length [s] with
      | nil =>
        simp [SynDModel.generate_trajectory, generator_next, stepRaw, hraw,
          SynDModel.get_backmapper, hl, SynDModel.generate_trajectories]
      | cons t ts =>
        simp [SynDModel.generate_trajectory, generator_next, stepRaw, hraw,
          SynDModel.get_backmapper, hl, SynDModel.generate_trajectories,
          applyBackmapper]

/-- C7: `deserialize` invoked on a class raises a `TypeError`-class error
exactly when the reconstructed object is not an instance of that class, and
otherwise returns the reconstructed object. -/
theorem c7_deserialize_type_check {L S T : Type} (cls : PyClassId)
    (p : Pickled L S T) :
    (deserialize cls p =
        Except.error (PyError.typeError
          ("object must be an instance of " ++ cls.className))
      ↔ isInstance (pickle_loads p) cls = false) ∧
    (isInstance (pickle_loads p) cls = true →
      deserialize cls p = Except.ok (pickle_loads p)) := by
  have hd : deserialize cls p =
      if isInstance (pickle_loads p) cls then Except.ok (pickle_loads p)
      else Except.error (PyError.typeError
        ("object must be an instance of " ++ cls.className)) := rfl
  cases hi : isInstance (pickle_loads p) cls with
  | false =>
    refine ⟨⟨fun _ => rfl, fun _ => ?_⟩, fun h => ?_⟩
    · rw [hd, hi]
      simp
    · simp [hi] at h
  | true =>
    refine ⟨⟨fun h => ?_, fun h => ?_⟩, fun _ => ?_⟩
    · rw [hd, hi] at h
      simp at h
    · simp [hi] at h
    · rw [hd, hi]
      simp

/-- Concrete object of class `ModelA` used by the persistence witnesses. -/
def demoObj : PyObject Nat Nat (List Nat) :=
  { cls := PyClassId.modelA, model := demoModel }

/-- Witness for C7: a pickled `ModelA` object deserializes on `ModelA` and is
rejected with a `TypeError` on the unrelated class `ModelB`. -/
theorem c7_witness :
    isInstance (pickle_loads demoObj.serialize) PyClassId.modelA = true ∧
    deserialize PyClassId.modelA demoObj.serialize =
      Except.ok (pickle_loads demoObj.serialize) ∧
    isInstance (pickle_loads demoObj.serialize) PyClassId.modelB = false ∧
    deserialize PyClassId.modelB demoObj.serialize =
      Except.error (PyError.typeError
        ("object must be an instance of " ++ PyClassId.className PyClassId.modelB)) := by
  have h1 := c7_deserialize_type_check PyClassId.modelA demoObj.serialize
  have h2 := c7_deserialize_type_check PyClassId.modelB demoObj.serialize
  exact ⟨rfl, h1.2 rfl, rfl, h2.1.mpr rfl⟩

/-- C8: round-trip — deserializing a model's serialized form on its own class
returns the object itself: same class, and every backmapper name resolves to
the same function as in the original registry. -/
theorem c8_serialize_roundtrip {L S T : Type} (obj : PyObject L S T) :
    deserialize obj.cls obj.serialize = Except.ok obj ∧
    (deserialize obj.cls obj.serialize).map (fun o => o.cls) =
      Except.ok obj.cls ∧
    ∀ name : String,
      (deserialize obj.cls obj.serialize).map
          (fun o => o.model.backmappers.lookup name) =
        Except.ok (obj.model.backmappers.lookup name) := by
  have hself : isInstance obj obj.cls = true := by
    show isSubclass obj.cls obj.cls = true
    cases hc : obj.cls <;> rfl
  refine ⟨?_, ?_, ?_⟩
  · simp [deserialize, PyObject.serialize, pickle_dumps, pickle_loads, hself]
  · simp [deserialize, PyObject.serialize, pickle_dumps, pickle_loads, hself,
      Except.map]
  · intro name
    simp [deserialize, PyObject.serialize, pickle_dumps, pickle_loads, hself,
      Except.map]

/-- C9: the `backmapper` parameter of both generation entry points defaults
to the string `"default"`; on a model where no backmapper named `"default"`
is registered, the default-argument call of `generate_trajectories` fails
with the `ValueError` of `get_backmapper` upon first iteration of the
generator, and the default-argument call of `generate_trajectory` raises it
directly. -/
theorem c9_default_argument_requires_registration {L S T : Type}
    (m : SynDModel L S T) (length : L) (states : List S) (s : S)
    (h : m.backmappers.lookup "default" = none) :
    generator_next m (GenState.created length states (some "default")) =
      Except.error (PyError.valueError (missingMsg "default")) ∧
    m.generate_trajectories_default length states =
      Except.error (PyError.valueError (missingMsg "default")) ∧
    m.generate_trajectory_default length s =
      Except.error (PyError.valueError (missingMsg "default")) := by
  refine ⟨?_, ?_, ?_⟩
  · simp [generator_next, SynDModel.get_backmapper, h]
  · simp [SynDModel.generate_trajectories_default, SynDModel.generate_trajectories,
      SynDModel.get_backmapper, h]
  · simp [SynDModel.generate_trajectory_default, SynDModel.generate_trajectory,
      generator_next, SynDModel.get_backmapper, h]

/-- Witness for C9 at a concrete model constructed without any backmapper. -/
theorem c9_witness :
    bareModel.backmappers.lookup "default" = none ∧
    bareModel.generate_trajectories_default 3 [1] =
      Except.error (PyError.valueError (missingMsg "default")) ∧
    bareModel.generate_trajectory_default 3 1 =
      Except.error (PyError.valueError (missingMsg "default")) := by
  have h : bareModel.backmappers.lookup "default" = none := rfl
  have hc := c9_default_argument_requires_registration bareModel 3 [1] 1 h
  exact ⟨h, hc.2.1, hc.2.2⟩

/-- C10: the backmapper name is resolved exactly once, at the first `next` of
the generator — the resolved function is stored in the generator state — and
stepping a started generator does not consult the model at all, so mutating
the registry while the iterator is consumed cannot change the function
applied to the remaining trajectories. -/
theorem c10_resolution_happens_once {L S T : Type} (m : SynDModel L S T)
    (length : L) (states : List S) (name : String) (f : T → T)
    (h : m.backmappers.lookup name = some f) :
    generator_next m (GenState.created length states (some name)) =
      stepRaw (some f) (m.generate_unmapped_trajectories length states) ∧
    (∀ (m' : SynDModel L S T) (f? : Option (T → T)) (rem : List T),
      generator_next m' (GenState.running f? rem) =
        generator_next m (GenState.running f? rem)) := by
  constructor
  · simp [generator_next, SynDModel.get_backmapper, h]
  · intro m' f? rem
    rfl

/-- Witness for C10: after the first `next` on the concrete model the
generator is `running` with the resolved reversal stored, and a model whose
registry was emptied steps the running generator identically. -/
theorem c10_witness :
    demoModel.backmappers.lookup "default" = some revBM ∧
    generator_next demoModel (GenState.created 2 [1, 5] (some "default")) =
      stepRaw (some revBM) (demoModel.generate_unmapped_trajectories 2 [1, 5]) ∧
    generator_next bareModel
        (GenState.running (some revBM) [[5, 6]]) =
      generator_next demoModel (GenState.running (some revBM) [[5, 6]]) := by
  have h : demoModel.backmappers.lookup "default" = some revBM := rfl
  have hc := c10_resolution_happens_once demoModel 2 [1, 5] "default" revBM h
  exact ⟨h, hc.1, hc.2 bareModel (some revBM) [[5, 6]]⟩
